import Mathlib

/-!
# Verification of `explore_epub.py`

A shallow embedding of the RapidReader EPUB-exploration script.

The script opens a ZIP/EPUB archive, iterates its entries, reads each
entry's bytes, decodes them as UTF-8 with `errors='ignore'`, and prints
the entry name and a (possibly truncated) preview of the decoded text,
with per-entry and archive-level error handling.

Modelling choices:
* Bytes are `List Nat` (each byte `< 256` in real inputs).
* Python `str` values that arise from decoding are modelled as
  `List Char` (a Python string is a sequence of code points; `len` is
  `List.length` and slicing `s[:100]` is `List.take 100`).
* Each `print(...)` call emits one line; program output is `List String`.
* The outcome of opening the archive (the filesystem / zipfile
  behaviour) is an input to the model: `Except ZipOpenError (List Entry)`,
  mirroring the three `except` clauses of the source.  A per-entry read
  either yields the entry's bytes or raises, mirroring the inner
  `try/except`: `Except String (List Nat)`.
-/

/-- Is `b` a UTF-8 continuation byte (`0x80 ≤ b ≤ 0xBF`)? -/
def contByte (b : Nat) : Bool := 0x80 ≤ b && b ≤ 0xBF

/-- Valid range for the second byte of a three-byte UTF-8 sequence with
lead byte `b` (Python/Unicode rules: `0xE0` needs `A0..BF`, `0xED`
needs `80..9F` to exclude surrogates, otherwise `80..BF`). -/
def second3Ok (b c : Nat) : Bool :=
  if b = 0xE0 then 0xA0 ≤ c && c ≤ 0xBF
  else if b = 0xED then 0x80 ≤ c && c ≤ 0x9F
  else contByte c

/-- Valid range for the second byte of a four-byte UTF-8 sequence with
lead byte `b` (`0xF0` needs `90..BF`, `0xF4` needs `80..8F` to stay
below `U+10FFFF`, otherwise `80..BF`). -/
def second4Ok (b c : Nat) : Bool :=
  if b = 0xF0 then 0x90 ≤ c && c ≤ 0xBF
  else if b = 0xF4 then 0x80 ≤ c && c ≤ 0x8F
  else contByte c

/-- Fuel-indexed worker for `utf8DecodeIgnore`.  Every step consumes at
least one input byte, so fuel equal to the input length (as passed by
`utf8DecodeIgnore`) is always sufficient; the fuel only serves to make
the recursion structural. -/
def utf8DecodeIgnoreAux : Nat → List Nat → List Char
  | 0, _ => []
  | _ + 1, [] => []
  | fuel + 1, b :: rest =>
    if b ≤ 0x7F then Char.ofNat b :: utf8DecodeIgnoreAux fuel rest
    else if b < 0xC2 then
      -- stray continuation byte or overlong lead 0xC0/0xC1: skip it
      utf8DecodeIgnoreAux fuel rest
    else if b ≤ 0xDF then
      match rest with
      | [] => []
      | c1 :: rest1 =>
        if contByte c1 then
          Char.ofNat ((b - 0xC0) * 0x40 + (c1 - 0x80)) :: utf8DecodeIgnoreAux fuel rest1
        else utf8DecodeIgnoreAux fuel (c1 :: rest1)
    else if b ≤ 0xEF then
      match rest with
      | [] => []
      | c1 :: rest1 =>
        if second3Ok b c1 then
          match rest1 with
          | [] => []
          | c2 :: rest2 =>
            if contByte c2 then
              Char.ofNat ((b - 0xE0) * 0x1000 + (c1 - 0x80) * 0x40 + (c2 - 0x80)) ::
                utf8DecodeIgnoreAux fuel rest2
            else utf8DecodeIgnoreAux fuel (c2 :: rest2)
        else utf8DecodeIgnoreAux fuel (c1 :: rest1)
    else if b ≤ 0xF4 then
      match rest with
      | [] => []
      | c1 :: rest1 =>
        if second4Ok b c1 then
          match rest1 with
          | [] => []
          | c2 :: rest2 =>
            if contByte c2 then
              match rest2 with
              | [] => []
              | c3 :: rest3 =>
                if contByte c3 then
                  Char.ofNat ((b - 0xF0) * 0x40000 + (c1 - 0x80) * 0x1000 +
                      (c2 - 0x80) * 0x40 + (c3 - 0x80)) :: utf8DecodeIgnoreAux fuel rest3
                else utf8DecodeIgnoreAux fuel (c3 :: rest3)
            else utf8DecodeIgnoreAux fuel (c2 :: rest2)
        else utf8DecodeIgnoreAux fuel (c1 :: rest1)
    else
      -- 0xF5..0xFF can start no valid sequence: skip it
      utf8DecodeIgnoreAux fuel rest

/-- UTF-8 decoding with Python's `errors='ignore'` handler: a maximal
ill-formed subpart is skipped (never raising), well-formed sequences
decode to their code point.  This embeds `bytes.decode('utf-8',
errors='ignore')` from line 17 of `explore_epub.py`. -/
def utf8DecodeIgnore (bytes : List Nat) : List Char :=
  utf8DecodeIgnoreAux bytes.length bytes

/-- One archive entry as the loop body sees it: the name from
`namelist()` together with the outcome of `epub_file.open(filename)`
followed by `file.read()` — either the raw bytes or the message of the
exception that was raised. -/
structure Entry where
  filename : String
  readResult : Except String (List Nat)

/-- The separator printed after each entry: `"-" * 20` (line 26). -/
def sep : String := String.join (List.replicate 20 "-")

/-- The inner loop body (lines 15–29): on a successful read, print the
name, the (possibly truncated) decoded content and the separator; if
the read raised, print the single error line. -/
def processEntry (e : Entry) : List String :=
  match e.readResult with
  | Except.error msg => ["Error reading '" ++ e.filename ++ "': " ++ msg]
  | Except.ok bytes =>
    let content : List Char := utf8DecodeIgnore bytes
    ("Filename: " ++ e.filename) ::
      (if content.length > 100 then
        "Content (first 100 chars): " ++ String.mk (content.take 100)
      else
        "Content: " ++ String.mk content) ::
      [sep]

/-- The ways `zipfile.ZipFile(path, 'r')` (or iterating it) can raise,
matching the three `except` clauses of lines 30–35. -/
inductive ZipOpenError where
  | fileNotFound
  | badZipFile
  | unexpected (msg : String)

/-- The first line printed by `processEntry e`: the filename line on a
successful read, the error line on a failed one. -/
def entryHeadLine (e : Entry) : String :=
  match e.readResult with
  | Except.ok _ => "Filename: " ++ e.filename
  | Except.error msg => "Error reading '" ++ e.filename ++ "': " ++ msg

/-- `explore_epub` (lines 4–35): the archive-open outcome is an input;
on success every entry of `namelist()` is processed in order, on
failure exactly one diagnostic line is printed.  The function is total:
no exception propagates to the caller. -/
def explore_epub (epub_filepath : String)
    (archive : Except ZipOpenError (List Entry)) : List String :=
  match archive with
  | Except.ok entries => (entries.map processEntry).flatten
  | Except.error ZipOpenError.fileNotFound =>
      ["Error: File '" ++ epub_filepath ++ "' not found."]
  | Except.error ZipOpenError.badZipFile =>
      ["Error: '" ++ epub_filepath ++ "' is not a valid ZIP or EPUB file."]
  | Except.error (ZipOpenError.unexpected msg) =>
      ["An unexpected error occurred: " ++ msg]

/-- The `__main__` block (lines 37–42): check `os.path.exists('file.epub')`
(an input to the model) and either run the explorer on that fixed path
or print the fixed diagnostic. -/
def mainProgram (fileExists : Bool)
    (archive : Except ZipOpenError (List Entry)) : List String :=
  if fileExists then explore_epub "file.epub" archive
  else
    ["Error: 'file.epub' does not exist. Please ensure this file is in the same directory or replace with the correct filepath."]

example : utf8DecodeIgnore [104, 105] = ['h', 'i'] := by decide
example : utf8DecodeIgnore [255, 104, 105] = ['h', 'i'] := by decide
example : utf8DecodeIgnore [0xC3, 0xA9] = ['é'] := by decide
example : utf8DecodeIgnore [0xE2, 0x82, 0xAC] = ['€'] := by decide
example : utf8DecodeIgnore [0xF0, 0x9F, 0x98, 0x80] = ['😀'] := by decide
example : utf8DecodeIgnore [0xED, 0xA0, 0x80] = [] := by decide
example : sep = "--------------------" := by decide
example :
    processEntry { filename := "a.txt", readResult := Except.ok [104, 105] } =
      ["Filename: a.txt", "Content: hi", "--------------------"] := by decide

/-! ## Claim theorems -/

/-- C1, counterexample to the claim as stated: the byte `0xFF` can never
be decoded, yet the printed text for the entry `a.txt` with bytes
`FF 68 69` is `hi` — the undecodable byte is dropped, and no replacement
character `U+FFFD` appears anywhere in the printed text. -/
theorem explore_c1_counterexample :
    processEntry { filename := "a.txt", readResult := Except.ok [0xFF, 104, 105] } =
      ["Filename: a.txt", "Content: hi", "--------------------"] ∧
    Char.ofNat 0xFFFD ∉ "hi".data := by
  exact ⟨by decide, by decide⟩

/-- C1 (amended): for every archive entry whose bytes are successfully
read, decoding to UTF-8 never fails — the entry always produces the
normal three output lines, headed by its `Filename:` line — and any
byte sequence that cannot be decoded is dropped from the printed text
(Python's `errors='ignore'`), not replaced with a replacement
character; in particular prepending the undecodable byte `0xFF` leaves
the decoded text unchanged. -/
theorem explore_c1_decode_never_fails (name : String) (bytes : List Nat) :
    (processEntry { filename := name, readResult := Except.ok bytes }).length = 3 ∧
    (processEntry { filename := name, readResult := Except.ok bytes }).head? =
      some ("Filename: " ++ name) ∧
    utf8DecodeIgnore (0xFF :: bytes) = utf8DecodeIgnore bytes := by
  refine ⟨?_, ?_, ?_⟩
  · simp only [processEntry]
    split <;> rfl
  · simp only [processEntry]
    split <;> rfl
  · rfl

/-- C2: for every successfully read entry the output is exactly the
line `Filename: <name>`, then — when the decoded text is longer than
100 characters — the line `Content (first 100 chars): ` followed by
exactly the first 100 characters of the decoded text, otherwise the
line `Content: ` followed by the full text, and then the separator;
the truncation takes exactly `min 100 (length)` characters and is a
prefix of the decoded text, and the separator is exactly 20 dashes. -/
theorem explore_c2_output_format (name : String) (bytes : List Nat) :
    processEntry { filename := name, readResult := Except.ok bytes } =
      ["Filename: " ++ name,
        if (utf8DecodeIgnore bytes).length > 100 then
          "Content (first 100 chars): " ++ String.mk ((utf8DecodeIgnore bytes).take 100)
        else
          "Content: " ++ String.mk (utf8DecodeIgnore bytes),
        sep] ∧
    sep.data = List.replicate 20 '-' ∧
    ((utf8DecodeIgnore bytes).take 100).length = min 100 (utf8DecodeIgnore bytes).length ∧
    (utf8DecodeIgnore bytes).take 100 <+: utf8DecodeIgnore bytes := by
  refine ⟨rfl, by decide, ?_, List.take_prefix 100 _⟩
  simp [List.length_take]

/-- C3: a failing entry between two runs of entries produces exactly
its `Error reading` line, and the scan continues — the whole output is
the output for the prefix entries, then the error line, then the output
for the remaining entries, all still processed. -/
theorem explore_c3_bad_entry_continues (path : String) (pre : List Entry)
    (name msg : String) (post : List Entry) :
    explore_epub path
        (Except.ok (pre ++ { filename := name, readResult := Except.error msg } :: post)) =
      explore_epub path (Except.ok pre) ++
        ("Error reading '" ++ name ++ "': " ++ msg) :: explore_epub path (Except.ok post) := by
  simp [explore_epub, processEntry]

/-- C4: `explore_epub` is a total function — it never propagates an
exception: every archive-open failure (file not found, bad archive, or
any other exception) yields exactly one printed diagnostic line and a
normal return, and a successful open yields the per-entry output. -/
theorem explore_c4_never_raises (path : String) (exc : ZipOpenError)
    (entries : List Entry) :
    (explore_epub path (Except.error exc)).length = 1 ∧
    explore_epub path (Except.ok entries) = (entries.map processEntry).flatten := by
  refine ⟨?_, rfl⟩
  cases exc <;> rfl

/-- C5: when the path does not resolve to an existing file (the archive
open raises `FileNotFoundError`), the entire output is exactly the
single line `Error: File '<path>' not found.` — no entries are
printed. -/
theorem explore_c5_file_not_found (path : String) :
    explore_epub path (Except.error ZipOpenError.fileNotFound) =
      ["Error: File '" ++ path ++ "' not found."] := rfl

/-- C6: when the file exists but its contents are not a valid ZIP
archive (the archive open raises `BadZipFile`), the entire output is
exactly the single line `Error: '<path>' is not a valid ZIP or EPUB
file.` — no entries are printed. -/
theorem explore_c6_bad_zip (path : String) :
    explore_epub path (Except.error ZipOpenError.badZipFile) =
      ["Error: '" ++ path ++ "' is not a valid ZIP or EPUB file."] := rfl

/-- C7: entries are processed strictly sequentially in the archive's
enumeration order: the output is the in-order concatenation of each
entry's block, and each block's first line names its entry (either
`Filename: <name>` or `Error reading '<name>': <cause>`, as
`entryHeadLine` records). -/
theorem explore_c7_entry_order (path : String) (entries : List Entry) :
    explore_epub path (Except.ok entries) = (entries.map processEntry).flatten ∧
    ∀ e, e ∈ entries → (processEntry e).head? = some (entryHeadLine e) := by
  refine ⟨rfl, ?_⟩
  intro e _
  cases e with
  | mk name r => cases r <;> rfl

/-- C7 witness: the order theorem applied to a concrete archive. -/
theorem explore_c7_entry_order_witness :
    (processEntry { filename := "a.txt", readResult := Except.ok [104, 105] }).head? =
      some (entryHeadLine { filename := "a.txt", readResult := Except.ok [104, 105] }) :=
  (explore_c7_entry_order "file.epub"
      [{ filename := "a.txt", readResult := Except.ok [104, 105] }]).2
    { filename := "a.txt", readResult := Except.ok [104, 105] } (by simp)

/-- C8: `explore_epub` is deterministic — two invocations on the same
path with the same unmodified archive contents produce identical
output. -/
theorem explore_c8_deterministic (path₁ path₂ : String)
    (a₁ a₂ : Except ZipOpenError (List Entry))
    (hp : path₁ = path₂) (ha : a₁ = a₂) :
    explore_epub path₁ a₁ = explore_epub path₂ a₂ := by
  rw [hp, ha]

/-- C8 witness: determinism applied to a concrete invocation. -/
theorem explore_c8_deterministic_witness :
    explore_epub "file.epub"
        (Except.ok [{ filename := "a.txt", readResult := Except.ok [104, 105] }]) =
      explore_epub "file.epub"
        (Except.ok [{ filename := "a.txt", readResult := Except.ok [104, 105] }]) :=
  explore_c8_deterministic "file.epub" "file.epub" _ _ rfl rfl

/-- C9: run standalone, the program checks the fixed relative path
`file.epub`: if it does not exist the output is exactly the fixed
diagnostic line and the explorer is never invoked; if it exists the
program invokes the explorer on exactly that path. -/
theorem main_c9_fixed_path (archive : Except ZipOpenError (List Entry)) :
    mainProgram false archive =
      ["Error: 'file.epub' does not exist. Please ensure this file is in the same directory or replace with the correct filepath."] ∧
    mainProgram true archive = explore_epub "file.epub" archive :=
  ⟨rfl, rfl⟩

/-- C10: for an entry whose open or read fails, the only output is the
single `Error reading '<name>': <cause>` line: it is not the separator
line, and it does not begin with `Filename: `, so neither a `Filename:`
line nor a separator is printed for a failed entry. -/
theorem explore_c10_failed_entry_single_line (name msg : String) :
    processEntry { filename := name, readResult := Except.error msg } =
      ["Error reading '" ++ name ++ "': " ++ msg] ∧
    ("Error reading '" ++ name ++ "': " ++ msg).data ≠ sep.data ∧
    ¬ "Filename: ".data <+: ("Error reading '" ++ name ++ "': " ++ msg).data := by
  have hd : ("Error reading '" ++ name ++ "': " ++ msg).data =
      'E' :: ("rror reading '" ++ name ++ "': " ++ msg).data := by
    simp only [String.data_append]
    have : ("Error reading '" : String).data = 'E' :: ("rror reading '" : String).data := by
      decide
    simp [this]
  refine ⟨rfl, ?_, ?_⟩
  · rw [hd]
    intro h
    have : 'E' = '-' := by
      have h20 : sep.data = '-' :: List.replicate 19 '-' := by decide
      rw [h20] at h
      exact List.head_eq_of_cons_eq h
    exact absurd this (by decide)
  · rw [hd]
    intro h
    have hF : ("Filename: " : String).data = 'F' :: ("ilename: " : String).data := by decide
    rw [hF] at h
    have : 'F' = 'E' := (List.cons_prefix_cons.mp h).1
    exact absurd this (by decide)
